import Mathlib

/-!
Verification of `packages/jest-environment-vite/src/index.js`.

The file shallow-embeds the script synthesizer, the `render` pipeline and the
`ViteEnvironment` lifecycle (`setup` / `teardown`).  External collaborators
(the babel transform, the Selenium driver, the istanbul reporter) are modelled
as oracles supplied to the embedded functions; the effects the code performs
on them are recorded in an explicit trace.
-/

/-- A render request, as produced by babel-plugin-original-source: the
original source text of the rendered expression (`code`) and the ordered
import-binding statements it needs (`imports`). -/
structure RenderRequest where
  code : String
  imports : List String
deriving Repr, DecidableEq

/-- JavaScript's `String.prototype.startsWith`, used at index.js:94:
the receiver's first characters coincide with the argument. -/
def jsStartsWith (s p : String) : Bool :=
  s.data.take p.data.length = p.data

/-- Line `async () => {` opening the synthesized script body (index.js:86). -/
def asyncOpenLine : String := "async () => \x7b"

/-- The React library-binding line of the script body (index.js:87). -/
def reactLine : String :=
  "const React = (await import(\"/node_modules/react.js\")).default;"

/-- The ReactDOM library-binding line of the script body (index.js:88). -/
def reactDomLine : String :=
  "const ReactDOM = (await import(\"/node_modules/react-dom.js\")).default;"

/-- The container-creation line of the script body (index.js:90). -/
def containerCreateLine : String :=
  "const container = document.createElement(\"container\");"

/-- The container-attachment line of the script body (index.js:91). -/
def appendChildLine : String := "document.body.appendChild(container);"

/-- The element-binding line of the script body (index.js:94-98): the code is
wrapped in an invocation exactly when its text starts with `() =>`. -/
def elementLine (code : String) : String :=
  if jsStartsWith code "() =>" then
    "const element = (" ++ code ++ ")();"
  else
    "const element = " ++ code ++ ";"

/-- The ReactDOM.render call line of the script body (index.js:100). -/
def renderCallLine : String :=
  "ReactDOM.render(element, container, () => callback(\x7bcontainer: container, coverage: window.__coverage__\x7d));"

/-- The closing line of the script body (index.js:101). -/
def closeLine : String := "\x7d"

/-- The lines of the synthesized script body, in the order the code pushes
them (index.js:85-101). -/
def scriptLines (data : RenderRequest) : List String :=
  [asyncOpenLine, reactLine, reactDomLine]
    ++ data.imports
    ++ [containerCreateLine, appendChildLine, elementLine data.code,
        renderCallLine, closeLine]

/-- The synthesized script body handed to the Source Transformer:
`lines.join("\n")` (index.js:103). -/
def synthesize (data : RenderRequest) : String :=
  String.intercalate "\n" (scriptLines data)

/-- Modelled from the spec: the CoverageMap of `istanbul-lib-coverage`
(created at index.js:21, merged into at index.js:116) is an external library
whose code is not under the repository sources.  Spec §3/§4.4: a CoverageMap
is a mapping from source-file identity to per-file coverage counters, here a
counter value per file and per location key. -/
def CoverageMap : Type := String → String → Nat

/-- Modelled from the spec: `istanbulLibCoverage.createCoverageMap(\x7b\x7d)`
yields an empty map — every counter is zero. -/
def createCoverageMap : CoverageMap := fun _ _ => 0

/-- Modelled from the spec: `coverageMap.merge(snapshot)` folds one
execution's snapshot into the running map; per-file counters accumulate (hit
counts sum per location key), per spec §4.4. -/
def CoverageMap.merge (m snapshot : CoverageMap) : CoverageMap :=
  fun file key => m file key + snapshot file key

/-- Failure modes of the remote execution layer (spec §4.3). -/
inductive ExecFailure where
  | sessionError
  | remoteExecutionError
  | timeoutError
deriving Repr, DecidableEq

/-- The error taxonomy of spec §7.  The embedded `render` only ever produces
`compileError` and `execError`; the remaining constructors exist so theorems
can state which errors the code never raises. -/
inductive RenderError where
  | invalidRequest
  | compileError (msg : String)
  | execError (e : ExecFailure)
  | environmentClosed
deriving Repr, DecidableEq

/-- The structured result the remote runtime sends back through the
completion callback (index.js:100, destructured at index.js:114): the
container reference (an opaque handle, a number here) and the coverage
snapshot. -/
structure ExecResult where
  container : Nat
  coverage : CoverageMap

/-- The external collaborators consumed by `render`: the Source Transformer
(`transformSync`, index.js:103) and the remote session
(`driver.executeAsyncScript`, index.js:114).  Each call either succeeds or
fails, as decided by the collaborator. -/
structure Remote where
  compile : String → Except String String
  execute : String → Except ExecFailure ExecResult

/-- Observable effects the environment performs on its collaborators. -/
inductive Effect where
  | compileCall (src : String)
  | remoteExec (compiled : String)
  | coverageMerge
  | reportWrite (formats : List String)
  | sessionRelease
  | serverStop
deriving Repr, DecidableEq

/-- The mutable state of a `ViteEnvironment` instance: the running coverage
map and container registry (index.js:21-22), plus bookkeeping for the two
external resources, the vite server (index.js:19) and the remote Selenium
session owned by the superclass. -/
structure EnvState where
  coverageMap : CoverageMap
  containers : List Nat
  serverRunning : Bool
  sessionOpen : Bool

/-- The environment state `setup` produces (index.js:16-23): a fresh empty
coverage map, an empty container registry, the server started and the remote
session live. -/
def setup : EnvState :=
  { coverageMap := createCoverageMap
    containers := []
    serverRunning := true
    sessionOpen := true }

/-- The `render` pipeline (index.js:78-121): synthesize the script body,
compile it, execute it remotely, merge the returned coverage snapshot, return
the container.  A failure of either external call propagates before the merge
(the coverage map is only touched at index.js:116, after both calls), so the
state is returned unchanged on the error paths.  The function consults no
lifecycle flag — exactly as the source, which has no closed-state check. -/
def render (rm : Remote) (st : EnvState) (data : RenderRequest) :
    List Effect × EnvState × Except RenderError Nat :=
  match rm.compile (synthesize data) with
  | .error msg => ([.compileCall (synthesize data)], st, .error (.compileError msg))
  | .ok compiled =>
    match rm.execute compiled with
    | .error e =>
        ([.compileCall (synthesize data), .remoteExec compiled], st,
         .error (.execError e))
    | .ok res =>
        ([.compileCall (synthesize data), .remoteExec compiled, .coverageMerge],
         { st with coverageMap := st.coverageMap.merge res.coverage },
         .ok res.container)

/-- The report formats registered at teardown: `['json', 'text', 'lcov']`
(index.js:29). -/
def reportFormats : List String := ["json", "text", "lcov"]

/-- The `teardown` method (index.js:25-32), in source order:
`super.teardown()` releases the remote session first; then the istanbul
reporter writes the reports; then `this.server.stop(...)` stops the vite
server.  `writeOk` is the outcome of the external `reporter.write` call.
When the write throws, the exception propagates (there is no try/catch and no
logging in the source), so `server.stop` is never reached: the server keeps
running and the method ends in error — but the session was already released. -/
def teardown (st : EnvState) (writeOk : Bool) :
    List Effect × EnvState × Except Unit Unit :=
  if writeOk then
    ([.sessionRelease, .reportWrite reportFormats, .serverStop],
     { st with sessionOpen := false, serverRunning := false }, .ok ())
  else
    ([.sessionRelease], { st with sessionOpen := false }, .error ())

/-- A sequence of render calls against one environment, accumulating the
effect trace and threading the state (a failed call leaves the state as it
was, matching `render`). -/
def runRenders (rm : Remote) : EnvState → List RenderRequest → List Effect × EnvState
  | st, [] => ([], st)
  | st, data :: rest =>
      let r := render rm st data
      let r2 := runRenders rm r.2.1 rest
      (r.1 ++ r2.1, r2.2)

/-- One full environment lifecycle: setup, a sequence of renders, teardown. -/
def lifecycle (rm : Remote) (reqs : List RenderRequest) (writeOk : Bool) :
    List Effect × EnvState × Except Unit Unit :=
  let r := runRenders rm setup reqs
  let t := teardown r.2 writeOk
  (r.1 ++ t.1, t.2.1, t.2.2)

/-- How many report-sink writes a trace contains. -/
def countReportWrites (tr : List Effect) : Nat :=
  tr.countP fun e =>
    match e with
    | .reportWrite _ => true
    | _ => false

/-- A remote whose collaborators always succeed: compilation is the identity
and execution returns container 0 with a one-hit-everywhere snapshot. -/
def rmOk : Remote :=
  { compile := fun s => .ok s
    execute := fun _ => .ok { container := 0, coverage := fun _ _ => 1 } }

/-- A remote whose Source Transformer rejects every script. -/
def rmCompileFail : Remote :=
  { compile := fun _ => .error "syntax error"
    execute := fun _ => .error .sessionError }

/-- A sample request. -/
def demoReq : RenderRequest := { code := "<Foo/>", imports := [] }

/-- The empty request. -/
def emptyReq : RenderRequest := { code := "", imports := [] }

/-- The environment state after a completed (successful) teardown. -/
def closedState : EnvState := (teardown setup true).2.1

-- Helper lemmas ------------------------------------------------------------

/-- `render` never touches the container registry (registration at
index.js:118 is commented out). -/
theorem render_containers (rm : Remote) (st : EnvState) (data : RenderRequest) :
    (render rm st data).2.1.containers = st.containers := by
  unfold render
  cases rm.compile (synthesize data) with
  | error msg => rfl
  | ok compiled =>
      simp only
      cases rm.execute compiled with
      | error e => rfl
      | ok res => rfl

/-- A single `render` call writes no report. -/
theorem render_no_reportWrite (rm : Remote) (st : EnvState)
    (data : RenderRequest) : countReportWrites (render rm st data).1 = 0 := by
  unfold render
  cases rm.compile (synthesize data) with
  | error msg => rfl
  | ok compiled =>
      simp only
      cases rm.execute compiled with
      | error e => rfl
      | ok res => rfl

/-- A sequence of renders writes no report and never touches the container
registry. -/
theorem runRenders_no_report_no_containers (rm : Remote) :
    ∀ (reqs : List RenderRequest) (st : EnvState),
      countReportWrites (runRenders rm st reqs).1 = 0 ∧
      (runRenders rm st reqs).2.containers = st.containers := by
  intro reqs
  induction reqs with
  | nil => intro st; exact ⟨rfl, rfl⟩
  | cons data rest ih =>
      intro st
      constructor
      · show countReportWrites
          ((render rm st data).1 ++ (runRenders rm (render rm st data).2.1 rest).1) = 0
        rw [countReportWrites, List.countP_append]
        have h1 := render_no_reportWrite rm st data
        have h2 := (ih (render rm st data).2.1).1
        rw [countReportWrites] at h1 h2
        omega
      · show (runRenders rm (render rm st data).2.1 rest).2.containers = st.containers
        rw [(ih (render rm st data).2.1).2, render_containers]

-- Claim theorems -----------------------------------------------------------

/-- C1: for every RenderRequest with N import statements, the synthesized
script body contains exactly those N statements, verbatim and in order,
immediately after the two library-binding lines (which follow the opening
line) and immediately before the container-creation line. -/
theorem imports_placement (data : RenderRequest) :
    (scriptLines data).take 3 = [asyncOpenLine, reactLine, reactDomLine] ∧
    ((scriptLines data).drop 3).take data.imports.length = data.imports ∧
    (scriptLines data).drop (data.imports.length + 3) =
      [containerCreateLine, appendChildLine, elementLine data.code,
       renderCallLine, closeLine] := by
  refine ⟨rfl, ?_, ?_⟩
  · show (data.imports ++ _).take data.imports.length = data.imports
    exact List.take_left _ _
  · show (data.imports ++ _).drop data.imports.length = _
    exact List.drop_left _ _

/-- C2: the synthesized script wraps `code` in an invocation exactly when its
text starts with `() =>`: a thunk-prefixed code (thunk or not) gets the
invocation wrapper, any other code is evaluated directly.  The discrimination
is purely syntactic: it reads nothing but the leading characters. -/
theorem thunk_wrapper (data : RenderRequest) :
    (jsStartsWith data.code "() =>" = true →
      "const element = (" ++ data.code ++ ")();" ∈ scriptLines data) ∧
    (jsStartsWith data.code "() =>" = false →
      "const element = " ++ data.code ++ ";" ∈ scriptLines data) := by
  constructor <;> intro h <;>
    simp [scriptLines, elementLine, h]

/-- Witness for C2 at the inputs the claim names: `"() => <Expr/>"` is
wrapped, `"<Expr/>"` is not, and `"() => x, y"` (a non-thunk expression that
merely starts with the prefix) is also wrapped. -/
theorem thunk_wrapper_witness :
    (jsStartsWith "() => <Expr/>" "() =>" = true ∧
      "const element = (" ++ "() => <Expr/>" ++ ")();" ∈
        scriptLines { code := "() => <Expr/>", imports := [] }) ∧
    (jsStartsWith "<Expr/>" "() =>" = false ∧
      "const element = " ++ "<Expr/>" ++ ";" ∈
        scriptLines { code := "<Expr/>", imports := [] }) ∧
    (jsStartsWith "() => x, y" "() =>" = true ∧
      "const element = (" ++ "() => x, y" ++ ")();" ∈
        scriptLines { code := "() => x, y", imports := [] }) :=
  ⟨⟨by decide, (thunk_wrapper { code := "() => <Expr/>", imports := [] }).1 (by decide)⟩,
   ⟨by decide, (thunk_wrapper { code := "<Expr/>", imports := [] }).2 (by decide)⟩,
   ⟨by decide, (thunk_wrapper { code := "() => x, y", imports := [] }).1 (by decide)⟩⟩

/-- C3: merging one snapshot into the empty CoverageMap twice yields per-file
counters exactly double those of merging it once, and merge is not
idempotent. -/
theorem merge_twice_doubles :
    (∀ (s : CoverageMap) (file key : String),
      ((createCoverageMap.merge s).merge s) file key =
        2 * (createCoverageMap.merge s) file key) ∧
    ∃ s : CoverageMap,
      (createCoverageMap.merge s).merge s ≠ createCoverageMap.merge s := by
  constructor
  · intro s file key
    show createCoverageMap file key + s file key + s file key =
      2 * (createCoverageMap file key + s file key)
    show 0 + s file key + s file key = 2 * (0 + s file key)
    omega
  · refine ⟨fun _ _ => 1, fun h => ?_⟩
    have h2 := congrFun (congrFun h "file.js") "k"
    have : (2 : Nat) = 1 := h2
    omega

/-- Witness for C3: the double merge of a concrete all-threes snapshot holds
counter 6 where the single merge holds 3. -/
theorem merge_twice_doubles_witness :
    ((createCoverageMap.merge fun _ _ => 3).merge fun _ _ => 3) "a.js" "k" =
      2 * (createCoverageMap.merge fun _ _ => 3) "a.js" "k" :=
  merge_twice_doubles.1 (fun _ _ => 3) "a.js" "k"

/-- C10: script synthesis is deterministic — requests with equal `code` and
element-wise equal `imports` synthesize identical script bodies. -/
theorem synthesize_deterministic (d1 d2 : RenderRequest)
    (hc : d1.code = d2.code) (hi : d1.imports = d2.imports) :
    synthesize d1 = synthesize d2 := by
  cases d1
  cases d2
  cases hc
  cases hi
  rfl

/-- Witness for C10 at two structurally equal concrete requests. -/
theorem synthesize_deterministic_witness :
    synthesize { code := "<Foo/>", imports := ["const Foo = 1;"] } =
      synthesize { code := "<Foo/>", imports := ["const Foo = 1;"] } :=
  synthesize_deterministic
    { code := "<Foo/>", imports := ["const Foo = 1;"] }
    { code := "<Foo/>", imports := ["const Foo = 1;"] } rfl rfl

/-- C4 counterexample: on the environment state left by a completed teardown
(session released), a render call still performs remote execution — the
remote session is invoked — and returns successfully rather than failing
with EnvironmentClosedError.  The source has no lifecycle guard. -/
theorem render_after_teardown_executes :
    closedState.sessionOpen = false ∧
    Effect.remoteExec (synthesize demoReq) ∈ (render rmOk closedState demoReq).1 ∧
    (render rmOk closedState demoReq).2.2 = Except.ok 0 := by
  refine ⟨rfl, ?_, rfl⟩
  show Effect.remoteExec (synthesize demoReq) ∈
    [Effect.compileCall (synthesize demoReq), Effect.remoteExec (synthesize demoReq),
     Effect.coverageMerge]
  simp

/-- C4 amended: render performs no lifecycle check at all.  After a completed
teardown, whenever the Source Transformer accepts the script, render still
invokes the remote session; and no render call, in any state, ever fails with
EnvironmentClosedError. -/
theorem render_no_closed_guard (rm : Remote) (st : EnvState)
    (data : RenderRequest) (compiled : String)
    (h : rm.compile (synthesize data) = .ok compiled) :
    Effect.remoteExec compiled ∈ (render rm (teardown st true).2.1 data).1 ∧
    ∀ (st2 : EnvState) (e : RenderError),
      (render rm st2 data).2.2 = .error e → e ≠ RenderError.environmentClosed := by
  constructor
  · unfold render
    rw [h]
    simp only
    cases rm.execute compiled with
    | error e => simp
    | ok res => simp
  · intro st2 e he
    unfold render at he
    rw [h] at he
    simp only at he
    cases hx : rm.execute compiled with
    | error e2 =>
        rw [hx] at he
        simp only at he
        cases he
        intro hc
        cases hc
    | ok res =>
        rw [hx] at he
        simp only at he
        cases he

/-- Witness for C4 amended: with the always-succeeding remote, after teardown
of the fresh environment, compilation succeeds and the conclusions hold. -/
theorem render_no_closed_guard_witness :
    rmOk.compile (synthesize demoReq) = .ok (synthesize demoReq) ∧
    (Effect.remoteExec (synthesize demoReq) ∈
        (render rmOk (teardown setup true).2.1 demoReq).1 ∧
      ∀ (st2 : EnvState) (e : RenderError),
        (render rmOk st2 demoReq).2.2 = .error e →
          e ≠ RenderError.environmentClosed) :=
  ⟨rfl, render_no_closed_guard rmOk setup demoReq (synthesize demoReq) rfl⟩

/-- C5: a failed render call leaves the environment state exactly as it was
(the coverage map keeps precisely the previously merged snapshots, the
registry and resource flags are untouched), and a subsequent render call on
that same state can succeed. -/
theorem render_failure_preserves_state (rm : Remote) (st : EnvState)
    (data : RenderRequest) (e : RenderError)
    (h : (render rm st data).2.2 = .error e) :
    (render rm st data).2.1 = st ∧
    (render rmOk ((render rm st data).2.1) demoReq).2.2 = Except.ok 0 := by
  have hst : (render rm st data).2.1 = st := by
    unfold render at h ⊢
    cases hc : rm.compile (synthesize data) with
    | error msg => rfl
    | ok compiled =>
        rw [hc] at h
        simp only at h ⊢
        cases hx : rm.execute compiled with
        | error e2 => rfl
        | ok res =>
            rw [hx] at h
            simp only at h
            cases h
  refine ⟨hst, ?_⟩
  rw [hst]
  rfl

/-- Witness for C5: a remote whose compiler rejects the script fails the
render call, and the conclusions hold at that concrete failure. -/
theorem render_failure_preserves_state_witness :
    (render rmCompileFail setup demoReq).2.2 =
      Except.error (RenderError.compileError "syntax error") ∧
    ((render rmCompileFail setup demoReq).2.1 = setup ∧
      (render rmOk ((render rmCompileFail setup demoReq).2.1) demoReq).2.2 =
        Except.ok 0) :=
  ⟨rfl, render_failure_preserves_state rmCompileFail setup demoReq
    (RenderError.compileError "syntax error") rfl⟩

/-- C6 counterexample: the empty RenderRequest is not rejected.  Script
synthesis succeeds on it (producing the eight fixed lines) and the whole
render pipeline completes without any error — in particular it does not fail
with InvalidRequest.  The source performs no input validation. -/
theorem empty_request_not_rejected :
    (scriptLines emptyReq).length = 8 ∧
    (render rmOk setup emptyReq).2.2 = Except.ok 0 ∧
    (render rmOk setup emptyReq).2.2 ≠ Except.error RenderError.invalidRequest := by
  refine ⟨rfl, rfl, fun h => ?_⟩
  rw [show (render rmOk setup emptyReq).2.2 = Except.ok 0 from rfl] at h
  cases h

/-- C6 amended: the script synthesizer is a pure total function with no
failure path: every RenderRequest — the empty one included — synthesizes to a
script of `imports.length + 8` lines, and no render call ever fails with
InvalidRequest (the errors a render call can produce all come from the
external compile and execute calls). -/
theorem synthesize_total_no_invalidRequest :
    (∀ data : RenderRequest,
      (scriptLines data).length = data.imports.length + 8) ∧
    (∀ (rm : Remote) (st : EnvState) (data : RenderRequest) (e : RenderError),
      (render rm st data).2.2 = .error e → e ≠ RenderError.invalidRequest) := by
  constructor
  · intro data
    show ([asyncOpenLine, reactLine, reactDomLine] ++ data.imports ++ _).length =
      data.imports.length + 8
    rw [List.length_append, List.length_append]
    simp
    omega
  · intro rm st data e he
    unfold render at he
    cases hc : rm.compile (synthesize data) with
    | error msg =>
        rw [hc] at he
        simp only at he
        cases he
        intro hx
        cases hx
    | ok compiled =>
        rw [hc] at he
        simp only at he
        cases hx : rm.execute compiled with
        | error e2 =>
            rw [hx] at he
            simp only at he
            cases he
            intro hy
            cases hy
        | ok res =>
            rw [hx] at he
            simp only at he
            cases he

/-- Witness for C6 amended: the length statement at the empty request, and
the no-InvalidRequest statement at a concrete failing render. -/
theorem synthesize_total_no_invalidRequest_witness :
    (scriptLines emptyReq).length = emptyReq.imports.length + 8 ∧
    ((render rmCompileFail setup demoReq).2.2 =
        Except.error (RenderError.compileError "syntax error") ∧
      RenderError.compileError "syntax error" ≠ RenderError.invalidRequest) :=
  ⟨synthesize_total_no_invalidRequest.1 emptyReq,
   rfl,
   synthesize_total_no_invalidRequest.2 rmCompileFail setup demoReq
     (RenderError.compileError "syntax error") rfl⟩

/-- C7: a lifecycle whose teardown write succeeds calls the report sink
exactly once, with exactly the formats json, text, lcov, and releases the
remote session (the render calls themselves never write reports). -/
theorem teardown_reports_once_and_releases (rm : Remote)
    (reqs : List RenderRequest) :
    countReportWrites (lifecycle rm reqs true).1 = 1 ∧
    Effect.reportWrite ["json", "text", "lcov"] ∈ (lifecycle rm reqs true).1 ∧
    Effect.sessionRelease ∈ (lifecycle rm reqs true).1 ∧
    Effect.serverStop ∈ (lifecycle rm reqs true).1 ∧
    (lifecycle rm reqs true).2.1.sessionOpen = false := by
  have hrenders := (runRenders_no_report_no_containers rm reqs setup).1
  have htrace : (lifecycle rm reqs true).1 =
      (runRenders rm setup reqs).1 ++
        [Effect.sessionRelease, Effect.reportWrite reportFormats,
         Effect.serverStop] := rfl
  refine ⟨?_, ?_, ?_, ?_, rfl⟩
  · rw [htrace, countReportWrites, List.countP_append]
    rw [countReportWrites] at hrenders
    rw [hrenders]
    rfl
  · rw [htrace]
    refine List.mem_append_right _ ?_
    show Effect.reportWrite reportFormats ∈ _
    simp
  · rw [htrace]
    exact List.mem_append_right _ (by simp)
  · rw [htrace]
    exact List.mem_append_right _ (by simp)

/-- C8 counterexample: at a teardown whose report write fails, the error
propagates out of teardown (nothing is logged or swallowed), the server is
never stopped and keeps running — only the session release, which the source
performs before report emission, has happened. -/
theorem report_failure_skips_server_stop :
    (teardown setup false).2.2 = Except.error () ∧
    Effect.serverStop ∉ (teardown setup false).1 ∧
    (teardown setup false).2.1.serverRunning = true ∧
    Effect.sessionRelease ∈ (teardown setup false).1 := by
  refine ⟨rfl, ?_, rfl, ?_⟩
  · show Effect.serverStop ∉ [Effect.sessionRelease]
    simp
  · show Effect.sessionRelease ∈ [Effect.sessionRelease]
    simp

/-- C8 amended: when report emission fails during teardown, the remote
session is still released (because `super.teardown()` runs before the
reporter), but the failure is not logged/best-effort: the error propagates
out of teardown and it does prevent the server stop — the server keeps
whatever running state it had. -/
theorem report_failure_behavior (st : EnvState) :
    Effect.sessionRelease ∈ (teardown st false).1 ∧
    (teardown st false).2.1.sessionOpen = false ∧
    Effect.serverStop ∉ (teardown st false).1 ∧
    (teardown st false).2.1.serverRunning = st.serverRunning ∧
    (teardown st false).2.2 = Except.error () := by
  refine ⟨?_, rfl, ?_, rfl, rfl⟩
  · show Effect.sessionRelease ∈ [Effect.sessionRelease]
    simp
  · show Effect.serverStop ∉ [Effect.sessionRelease]
    simp

/-- C9: the container registry is empty right after setup and is still empty
after any sequence of render calls — no environment operation registers a
container (index.js:118 is commented out). -/
theorem containers_stay_empty (rm : Remote) (reqs : List RenderRequest) :
    setup.containers = [] ∧
    (runRenders rm setup reqs).2.containers = [] := by
  refine ⟨rfl, ?_⟩
  rw [(runRenders_no_report_no_containers rm reqs setup).2]
  rfl
